import Mathlib

/-!
Shallow embedding of the CO2-emission calculator (Calculadora de Carbono).

JavaScript numbers are modelled as exact rationals (`ℚ`); the decimal
literals of the source (`0.12`, `0.089`, …) denote the rationals they
write.  `Math.round` is modelled by `jsRound` (round half toward +∞,
which is the ECMAScript behaviour).  JavaScript strings are modelled by
`String`, with the character-level operations of the source
(`trim`, `toLowerCase`) carried out on the underlying `List Char`.

Embedded source:
  - `CONFIG` (config.js): emission factors and carbon-credit constants.
  - `Calculator` (calculator.js): `calculateEmission`,
    `calculateAllModes`, `calculateSavings`, `calculateCarbonCredits`,
    `estimateCreditPrice`.
  - `RoutesDB` (routes-data.js): the static route catalog,
    `getAllCities`, `findDistance`.
-/

/-- ECMAScript `Math.round`: round half toward positive infinity. -/
def jsRound (x : ℚ) : ℤ := ⌊x + 1/2⌋

/-- `Math.round(x * 100) / 100`, the 2-decimal rounding used throughout the source. -/
def jsRound2 (x : ℚ) : ℚ := (jsRound (x * 100) : ℚ) / 100

/-- `Math.round(x * 10000) / 10000`, the 4-decimal rounding used for credits. -/
def jsRound4 (x : ℚ) : ℚ := (jsRound (x * 10000) : ℚ) / 10000

/-- Rounding to the nearest integer with ties away from zero (the rounding
named by the specification's `round2`). -/
def roundAway (x : ℚ) : ℤ := if 0 ≤ x then ⌊x + 1/2⌋ else ⌈x - 1/2⌉

/-- The specification's `round2(x) = round(x * 100) / 100`, ties away from zero. -/
def round2Spec (x : ℚ) : ℚ := (roundAway (x * 100) : ℚ) / 100

/-- The specification's `round4(x) = round(x * 10000) / 10000`, ties away from zero. -/
def round4Spec (x : ℚ) : ℚ := (roundAway (x * 10000) : ℚ) / 10000

/-- JavaScript `String.prototype.toLowerCase`, restricted to the characters
that occur in this repository's data: ASCII letters and the Latin-1
uppercase letters (`À`–`Þ`, excluding `×`) are mapped to their lowercase
forms; every other character is unchanged. -/
def jsCharLower (c : Char) : Char :=
  if ('A' ≤ c ∧ c ≤ 'Z') ∨ ((0xC0 ≤ c.toNat ∧ c.toNat ≤ 0xDE) ∧ c.toNat ≠ 0xD7) then
    Char.ofNat (c.toNat + 32)
  else c

/-- Lowercasing of a JavaScript string, character by character. -/
def jsLower (s : List Char) : List Char := s.map jsCharLower

/-- JavaScript `String.prototype.trim`: drop whitespace from both ends. -/
def jsTrim (s : List Char) : List Char :=
  ((s.dropWhile Char.isWhitespace).reverse.dropWhile Char.isWhitespace).reverse

/-- The normalization `findDistance` applies to each input name:
`name.trim().toLowerCase()`. -/
def normalizeName (s : String) : List Char := jsLower (jsTrim s.data)

def emptyStr : String := ""

def bicycleMode : String := "bicycle"

def carMode : String := "car"

def planeMode : String := "plane"

def boatMode : String := "boat"

def busMode : String := "bus"

def truckMode : String := "truck"

/-- `CONFIG.EMISSION_FACTORS` (config.js lines 54-61), as an association
list in the object's insertion order (`Object.keys` order). -/
def EMISSION_FACTORS : List (String × ℚ) :=
  [(bicycleMode, 0), (carMode, 12/100), (planeMode, 20/100),
   (boatMode, 15/100), (busMode, 89/1000), (truckMode, 96/100)]

/-- `Object.keys(CONFIG.EMISSION_FACTORS)`: the known transport modes. -/
def modeKeys : List String := EMISSION_FACTORS.map Prod.fst

/-- The emission factor of a known mode (`CONFIG.EMISSION_FACTORS[mode]`). -/
def emissionFactor (m : String) : ℚ := (EMISSION_FACTORS.lookup m).getD 0

/-- `CONFIG.CARBON_CREDIT.KG_PER_CREDIT`. -/
def KG_PER_CREDIT : ℚ := 1000

/-- `CONFIG.CARBON_CREDIT.PRICE_MIN_BRL`. -/
def PRICE_MIN_BRL : ℚ := 50

/-- `CONFIG.CARBON_CREDIT.PRICE_MAX_BRL`. -/
def PRICE_MAX_BRL : ℚ := 150

/-- `Calculator.calculateEmission(distanceKm, transportMode)`
(calculator.js lines 338-359): returns `0` on a negative distance or a
falsy/unknown mode, otherwise `Math.round(distanceKm * factor * 100) / 100`. -/
def calculateEmission (distanceKm : ℚ) (transportMode : String) : ℚ :=
  if distanceKm < 0 ∨ transportMode = emptyStr then 0
  else
    match EMISSION_FACTORS.lookup transportMode with
    | none => 0
    | some f => (jsRound (distanceKm * f * 100) : ℚ) / 100

/-- One element of the array produced by `Calculator.calculateAllModes`. -/
structure ComparisonEntry where
  mode : String
  emission : ℚ
  percentageVsCar : ℚ
deriving DecidableEq, Repr

/-- The boolean comparison of the sort `results.sort((a, b) => a.emission - b.emission)`. -/
def emissionLe (a b : ComparisonEntry) : Bool := a.emission ≤ b.emission

/-- `Calculator.calculateAllModes(distanceKm)` (calculator.js lines 384-420):
car emission as baseline, empty array when the baseline is `0`, one entry
per mode in `Object.keys` order, stably sorted ascending by emission. -/
def calculateAllModes (distanceKm : ℚ) : List ComparisonEntry :=
  let carEmission := calculateEmission distanceKm carMode
  if carEmission = 0 then []
  else
    let results := modeKeys.map (fun mode =>
      let emission := calculateEmission distanceKm mode
      let percentageVsCar := emission / carEmission * 100
      ⟨mode, emission, (jsRound (percentageVsCar * 100) : ℚ) / 100⟩)
    results.mergeSort emissionLe

/-- The entry that `calculateAllModes` builds for one mode (the body of its
`forEach` loop, with the car baseline written out). -/
def modeEntry (d : ℚ) (mode : String) : ComparisonEntry :=
  ⟨mode, calculateEmission d mode,
    (jsRound (calculateEmission d mode / calculateEmission d carMode * 100 * 100) : ℚ) / 100⟩

/-- The object returned by `Calculator.calculateSavings`. -/
structure SavingsResult where
  savedKg : ℚ
  percentage : ℚ
deriving DecidableEq, Repr

/-- `Calculator.calculateSavings(emission, baselineEmission)`
(calculator.js lines 441-459). -/
def calculateSavings (emission baselineEmission : ℚ) : SavingsResult :=
  if baselineEmission = 0 then ⟨0, 0⟩
  else
    let savedKg := (jsRound ((baselineEmission - emission) * 100) : ℚ) / 100
    let percentage := (jsRound (savedKg / baselineEmission * 10000) : ℚ) / 100
    ⟨savedKg, percentage⟩

/-- `Calculator.calculateCarbonCredits(emissionKg)` (calculator.js lines 481-493). -/
def calculateCarbonCredits (emissionKg : ℚ) : ℚ :=
  if emissionKg < 0 then 0
  else (jsRound (emissionKg / KG_PER_CREDIT * 10000) : ℚ) / 10000

/-- The object returned by `Calculator.estimateCreditPrice`. -/
structure PriceEstimate where
  min : ℚ
  max : ℚ
  average : ℚ
deriving DecidableEq, Repr

/-- `Calculator.estimateCreditPrice(credits)` (calculator.js lines 519-541). -/
def estimateCreditPrice (credits : ℚ) : PriceEstimate :=
  if credits < 0 then ⟨0, 0, 0⟩
  else
    let minPrice := (jsRound (credits * PRICE_MIN_BRL * 100) : ℚ) / 100
    let maxPrice := (jsRound (credits * PRICE_MAX_BRL * 100) : ℚ) / 100
    let averagePrice := (jsRound ((minPrice + maxPrice) / 2 * 100) : ℚ) / 100
    ⟨minPrice, maxPrice, averagePrice⟩

/-- One entry of `RoutesDB.routes`. -/
structure Route where
  origin : String
  destination : String
  distanceKm : ℚ
deriving DecidableEq, Repr

/-- `RoutesDB.routes` (routes-data.js lines 40-91), in source order. -/
def routes : List Route :=
  [⟨"São Paulo, SP", "Rio de Janeiro, RJ", 430⟩,
   ⟨"São Paulo, SP", "Brasília, DF", 1015⟩,
   ⟨"Rio de Janeiro, RJ", "Brasília, DF", 1148⟩,
   ⟨"São Paulo, SP", "Campinas, SP", 95⟩,
   ⟨"Rio de Janeiro, RJ", "Niterói, RJ", 13⟩,
   ⟨"Belo Horizonte, MG", "Ouro Preto, MG", 100⟩,
   ⟨"São Paulo, SP", "Belo Horizonte, MG", 586⟩,
   ⟨"Rio de Janeiro, RJ", "Belo Horizonte, MG", 716⟩,
   ⟨"São Paulo, SP", "Sorocaba, SP", 108⟩,
   ⟨"São Paulo, SP", "Guarulhos, SP", 28⟩,
   ⟨"Manaus, AM", "Rio Branco, AC", 1800⟩,
   ⟨"Belém, PA", "Manaus, AM", 1665⟩,
   ⟨"Belém, PA", "Brasília, DF", 1863⟩,
   ⟨"Manaus, AM", "Brasília, DF", 2187⟩,
   ⟨"Salvador, BA", "Brasília, DF", 1268⟩,
   ⟨"Recife, PE", "Salvador, BA", 766⟩,
   ⟨"Fortaleza, CE", "Brasília, DF", 2145⟩,
   ⟨"Natal, RN", "Recife, PE", 299⟩,
   ⟨"Maceió, AL", "Recife, PE", 240⟩,
   ⟨"São Luís, MA", "Brasília, DF", 2125⟩,
   ⟨"Teresina, PI", "Brasília, DF", 1704⟩,
   ⟨"Curitiba, PR", "Brasília, DF", 1110⟩,
   ⟨"Rio de Janeiro, RJ", "Curitiba, PR", 920⟩,
   ⟨"São Paulo, SP", "Curitiba, PR", 408⟩,
   ⟨"Porto Alegre, RS", "Curitiba, PR", 1090⟩,
   ⟨"Curitiba, PR", "Londrina, PR", 380⟩,
   ⟨"Brasília, DF", "Porto Alegre, RS", 2020⟩,
   ⟨"Santa Maria, RS", "Porto Alegre, RS", 290⟩,
   ⟨"Florianópolis, SC", "Porto Alegre, RS", 640⟩,
   ⟨"Brasília, DF", "Goiânia, GO", 209⟩,
   ⟨"Brasília, DF", "Cuiabá, MT", 925⟩,
   ⟨"Goiânia, GO", "São Paulo, SP", 917⟩,
   ⟨"Campo Grande, MS", "Brasília, DF", 1315⟩,
   ⟨"Cuiabá, MT", "Goiânia, GO", 1070⟩,
   ⟨"Santos, SP", "São Paulo, SP", 72⟩,
   ⟨"Jundiaí, SP", "São Paulo, SP", 60⟩,
   ⟨"Ribeirão Preto, SP", "São Paulo, SP", 310⟩,
   ⟨"Araçatuba, SP", "São Paulo, SP", 520⟩,
   ⟨"Vitória, ES", "Rio de Janeiro, RJ", 521⟩]

/-- Lexicographic comparison of character sequences, the order used by the
default JavaScript `Array.prototype.sort` on strings. -/
def charListLe : List Char → List Char → Bool
  | [], _ => true
  | _ :: _, [] => false
  | a :: as, b :: bs => if a < b then true else if b < a then false else charListLe as bs

/-- The comparison of the default JavaScript `Array.prototype.sort` on
strings: lexicographic on the character sequences. -/
def stringLe (a b : String) : Bool := charListLe a.data b.data

/-- `RoutesDB.getAllCities()` (routes-data.js lines 100-112): insert every
origin and destination into a `Set` (keeping first occurrences, in
iteration order), then sort lexicographically. -/
def getAllCities : List String :=
  let cities := (routes.flatMap (fun r => [r.origin, r.destination])).foldl
    (fun acc c => if c ∈ acc then acc else acc ++ [c]) []
  cities.mergeSort stringLe

/-- The forward match test of `RoutesDB.findDistance`: the stored route `r`,
with both stored names lowercased, matches the (trimmed, lowercased)
queried pair `(a, b)` in that order. -/
def matchesFwd (r : Route) (a b : String) : Prop :=
  jsLower r.origin.data = normalizeName a ∧ jsLower r.destination.data = normalizeName b

instance (r : Route) (a b : String) : Decidable (matchesFwd r a b) := by
  unfold matchesFwd; infer_instance

/-- `RoutesDB.findDistance(origin, destination)` (routes-data.js lines
123-152): trim and lowercase both inputs, scan for a forward match, then
for a reverse match, and return the stored distance or `null`. -/
def findDistance (origin destination : String) : Option ℚ :=
  let normalizedOrigin := normalizeName origin
  let normalizedDestination := normalizeName destination
  match routes.find? (fun r =>
      jsLower r.origin.data == normalizedOrigin &&
      jsLower r.destination.data == normalizedDestination) with
  | some r => some r.distanceKm
  | none =>
    match routes.find? (fun r =>
        jsLower r.origin.data == normalizedDestination &&
        jsLower r.destination.data == normalizedOrigin) with
    | some r => some r.distanceKm
    | none => none

/-! ### Helper lemmas -/

theorem lookup_bicycle : EMISSION_FACTORS.lookup bicycleMode = some 0 := rfl

theorem lookup_car : EMISSION_FACTORS.lookup carMode = some (12/100) := rfl

theorem lookup_plane : EMISSION_FACTORS.lookup planeMode = some (20/100) := rfl

theorem lookup_boat : EMISSION_FACTORS.lookup boatMode = some (15/100) := rfl

theorem lookup_bus : EMISSION_FACTORS.lookup busMode = some (89/1000) := rfl

theorem lookup_truck : EMISSION_FACTORS.lookup truckMode = some (96/100) := rfl

/-- Evaluation rule for `jsRound` at a known integer result. -/
theorem jsRound_eq (x : ℚ) (z : ℤ) (h1 : (z : ℚ) ≤ x + 1/2) (h2 : x + 1/2 < z + 1) :
    jsRound x = z := by
  rw [jsRound]
  exact Int.floor_eq_iff.2 ⟨h1, by exact_mod_cast h2⟩

/-- For non-negative arguments, ties-away-from-zero rounding agrees with
JavaScript `Math.round`. -/
theorem roundAway_eq_jsRound (x : ℚ) (hx : 0 ≤ x) : roundAway x = jsRound x := if_pos hx

/-- For a non-negative argument, the specification rounding `round2Spec`
agrees with the source rounding `jsRound2`. -/
theorem round2Spec_of_nonneg (x : ℚ) (hx : 0 ≤ x) : round2Spec x = jsRound2 x := by
  rw [round2Spec, jsRound2, roundAway_eq_jsRound (x * 100) (by positivity)]

theorem jsRound_nonneg (x : ℚ) (hx : 0 ≤ x) : 0 ≤ jsRound x := by
  rw [jsRound]
  exact Int.floor_nonneg.2 (by linarith)

theorem jsRound2_nonneg (x : ℚ) (hx : 0 ≤ x) : 0 ≤ jsRound2 x :=
  div_nonneg (by exact_mod_cast jsRound_nonneg (x * 100) (by positivity)) (by norm_num)

theorem jsRound_nonpos (x : ℚ) (hx : x ≤ 0) : jsRound x ≤ 0 := by
  have h : jsRound x < 1 := by
    rw [jsRound]
    exact Int.floor_lt.2 (by push_cast; linarith)
  omega

/-- Unfolding of `calculateEmission` on a valid input. -/
theorem calculateEmission_def (d : ℚ) (m : String) (f : ℚ)
    (hd : ¬ d < 0) (hm : EMISSION_FACTORS.lookup m = some f) (hne : ¬ m = emptyStr) :
    calculateEmission d m = (jsRound (d * f * 100) : ℚ) / 100 := by
  rw [calculateEmission, if_neg (not_or.2 ⟨hd, hne⟩), hm]

/-- On a valid input, `calculateEmission` computes the specification's
`round2(distanceKm * factor)`. -/
theorem calculateEmission_eq_round2Spec (d : ℚ) (m : String) (f : ℚ)
    (hd : 0 ≤ d) (hf : 0 ≤ f) (hm : EMISSION_FACTORS.lookup m = some f)
    (hne : ¬ m = emptyStr) :
    calculateEmission d m = round2Spec (d * f) := by
  rw [calculateEmission_def d m f (not_lt.2 hd) hm hne, round2Spec,
    roundAway_eq_jsRound (d * f * 100) (by positivity)]

/-! ### C1 -/

/-- C1: for every distanceKm ≥ 0 and every known transport mode,
`calculateEmission` computes `round2(distanceKm * emissionFactor[mode])`
with `round2` rounding ties away from zero (for these non-negative inputs
that is the source's native `Math.round`); in particular
`calculateEmission 100 "car" = 12`, `calculateEmission 100 "bus" = 8.9`,
and `calculateEmission d "bicycle" = 0` for every non-negative d. -/
theorem C1_computeEmission (d : ℚ) (m : String) (hd : 0 ≤ d) (hm : m ∈ modeKeys) :
    calculateEmission d m = round2Spec (d * emissionFactor m)
    ∧ calculateEmission 100 carMode = 12
    ∧ calculateEmission 100 busMode = 89/10
    ∧ calculateEmission d bicycleMode = 0 := by
  refine ⟨?_, ?_, ?_, ?_⟩
  · have hm' : m ∈ [bicycleMode, carMode, planeMode, boatMode, busMode, truckMode] := hm
    simp only [List.mem_cons, List.not_mem_nil, or_false] at hm'
    rcases hm' with rfl | rfl | rfl | rfl | rfl | rfl
    · exact calculateEmission_eq_round2Spec d bicycleMode 0 hd le_rfl lookup_bicycle (by decide)
    · exact calculateEmission_eq_round2Spec d carMode (12/100) hd (by norm_num) lookup_car
        (by decide)
    · exact calculateEmission_eq_round2Spec d planeMode (20/100) hd (by norm_num) lookup_plane
        (by decide)
    · exact calculateEmission_eq_round2Spec d boatMode (15/100) hd (by norm_num) lookup_boat
        (by decide)
    · exact calculateEmission_eq_round2Spec d busMode (89/1000) hd (by norm_num) lookup_bus
        (by decide)
    · exact calculateEmission_eq_round2Spec d truckMode (96/100) hd (by norm_num) lookup_truck
        (by decide)
  · rw [calculateEmission_def 100 carMode (12/100) (by norm_num) lookup_car (by decide),
      jsRound_eq (100 * (12/100) * 100) 1200 (by norm_num) (by norm_num)]
    norm_num
  · rw [calculateEmission_def 100 busMode (89/1000) (by norm_num) lookup_bus (by decide),
      jsRound_eq (100 * (89/1000) * 100) 890 (by norm_num) (by norm_num)]
    norm_num
  · rw [calculateEmission_def d bicycleMode 0 (not_lt.2 hd) lookup_bicycle (by decide),
      jsRound_eq (d * 0 * 100) 0 (by norm_num) (by norm_num)]
    norm_num

/-- Witness for C1 at `d = 100`, `m = "car"`. -/
theorem C1_witness :
    0 ≤ (100 : ℚ) ∧ carMode ∈ modeKeys
    ∧ (calculateEmission 100 carMode = round2Spec (100 * emissionFactor carMode)
       ∧ calculateEmission 100 carMode = 12
       ∧ calculateEmission 100 busMode = 89/10
       ∧ calculateEmission 100 bicycleMode = 0) :=
  ⟨by norm_num, by decide, C1_computeEmission 100 carMode (by norm_num) (by decide)⟩

/-! ### C6 -/

/-- C6: every invalid input is handled by returning a neutral default:
a negative distance or an unknown mode makes `calculateEmission` return 0,
a negative emission makes `calculateCarbonCredits` return 0, a negative
credit count makes `estimateCreditPrice` return the all-zero estimate, and
a zero baseline makes `calculateSavings` return the all-zero result; in the
total-function embedding no case raises an error. -/
theorem C6_neutralDefaults (d x e c : ℚ) (m munk : String)
    (hd : d < 0) (hm : EMISSION_FACTORS.lookup munk = none)
    (he : e < 0) (hc : c < 0) :
    calculateEmission d m = 0
    ∧ calculateEmission x munk = 0
    ∧ calculateCarbonCredits e = 0
    ∧ estimateCreditPrice c = ⟨0, 0, 0⟩
    ∧ calculateSavings x 0 = ⟨0, 0⟩ := by
  refine ⟨?_, ?_, ?_, ?_, ?_⟩
  · rw [calculateEmission, if_pos (Or.inl hd)]
  · rw [calculateEmission]
    split
    · rfl
    · rw [hm]
  · rw [calculateCarbonCredits, if_pos he]
  · rw [estimateCreditPrice, if_pos hc]
  · rw [calculateSavings, if_pos rfl]

/-- Witness for C6 at distance −5, mode "train" (unknown), emission −1,
credits −1. -/
theorem C6_witness :
    ((-5 : ℚ) < 0) ∧ EMISSION_FACTORS.lookup (r"train") = none ∧ ((-1 : ℚ) < 0)
    ∧ calculateEmission (-5) carMode = 0
    ∧ calculateEmission 3 (r"train") = 0
    ∧ calculateCarbonCredits (-1) = 0
    ∧ estimateCreditPrice (-1) = ⟨0, 0, 0⟩
    ∧ calculateSavings 3 0 = ⟨0, 0⟩ := by
  have h := C6_neutralDefaults (-5) 3 (-1) (-1) carMode (r"train") (by norm_num) rfl
    (by norm_num) (by norm_num)
  exact ⟨by norm_num, rfl, by norm_num, h.1, h.2.1, h.2.2.1, h.2.2.2.1, h.2.2.2.2⟩

/-! ### C8 -/

/-- C8: for credits ≥ 0, `estimateCreditPrice` returns
`min = round2(credits * 50)`, `max = round2(credits * 150)` and
`average = round2((min + max) / 2)` computed from the already-rounded min
and max; for emissionKg ≥ 0, `calculateCarbonCredits` returns
`round4(emissionKg / 1000)`; in particular
`calculateCarbonCredits 1250 = 1.25` and `estimateCreditPrice 1.25`
is `{min: 62.5, max: 187.5, average: 125}`. -/
theorem C8_creditsAndPrices (c e : ℚ) (hc : 0 ≤ c) (he : 0 ≤ e) :
    estimateCreditPrice c
      = ⟨round2Spec (c * PRICE_MIN_BRL), round2Spec (c * PRICE_MAX_BRL),
         round2Spec ((round2Spec (c * PRICE_MIN_BRL) + round2Spec (c * PRICE_MAX_BRL)) / 2)⟩
    ∧ calculateCarbonCredits e = round4Spec (e / KG_PER_CREDIT)
    ∧ calculateCarbonCredits 1250 = 5/4
    ∧ estimateCreditPrice (5/4) = ⟨125/2, 375/2, 125⟩ := by
  refine ⟨?_, ?_, ?_, ?_⟩
  · have hmin : (0:ℚ) ≤ c * PRICE_MIN_BRL := by rw [PRICE_MIN_BRL]; positivity
    have hmax : (0:ℚ) ≤ c * PRICE_MAX_BRL := by rw [PRICE_MAX_BRL]; positivity
    have havg : (0:ℚ) ≤ (jsRound2 (c * PRICE_MIN_BRL) + jsRound2 (c * PRICE_MAX_BRL)) / 2 :=
      div_nonneg (add_nonneg (jsRound2_nonneg _ hmin) (jsRound2_nonneg _ hmax)) (by norm_num)
    rw [round2Spec_of_nonneg (c * PRICE_MIN_BRL) hmin,
      round2Spec_of_nonneg (c * PRICE_MAX_BRL) hmax, round2Spec_of_nonneg _ havg,
      estimateCreditPrice, if_neg (not_lt.2 hc)]
    rfl
  · rw [calculateCarbonCredits, if_neg (not_lt.2 he), round4Spec,
      roundAway_eq_jsRound (e / KG_PER_CREDIT * 10000)
        (by rw [KG_PER_CREDIT]; positivity)]
  · rw [calculateCarbonCredits, if_neg (by norm_num), KG_PER_CREDIT,
      jsRound_eq (1250 / 1000 * 10000) 12500 (by norm_num) (by norm_num)]
    norm_num
  · rw [estimateCreditPrice, if_neg (by norm_num), PRICE_MIN_BRL, PRICE_MAX_BRL]
    show (⟨(jsRound (5/4 * 50 * 100) : ℚ) / 100, (jsRound (5/4 * 150 * 100) : ℚ) / 100,
      (jsRound (((jsRound (5/4 * 50 * 100) : ℚ) / 100
        + (jsRound (5/4 * 150 * 100) : ℚ) / 100) / 2 * 100) : ℚ) / 100⟩ : PriceEstimate)
      = ⟨125/2, 375/2, 125⟩
    rw [jsRound_eq (5/4 * 50 * 100) 6250 (by norm_num) (by norm_num),
      jsRound_eq (5/4 * 150 * 100) 18750 (by norm_num) (by norm_num)]
    rw [jsRound_eq ((((6250:ℤ):ℚ)/100 + ((18750:ℤ):ℚ)/100) / 2 * 100) 12500
      (by norm_num) (by norm_num)]
    norm_num

/-- Witness for C8 at `credits = 1.25`, `emissionKg = 1250`. -/
theorem C8_witness :
    0 ≤ (5/4 : ℚ) ∧ 0 ≤ (1250 : ℚ)
    ∧ (estimateCreditPrice (5/4)
        = ⟨round2Spec (5/4 * PRICE_MIN_BRL), round2Spec (5/4 * PRICE_MAX_BRL),
           round2Spec ((round2Spec (5/4 * PRICE_MIN_BRL)
             + round2Spec (5/4 * PRICE_MAX_BRL)) / 2)⟩
       ∧ calculateCarbonCredits 1250 = round4Spec (1250 / KG_PER_CREDIT)
       ∧ calculateCarbonCredits 1250 = 5/4
       ∧ estimateCreditPrice (5/4) = ⟨125/2, 375/2, 125⟩) :=
  ⟨by norm_num, by norm_num, C8_creditsAndPrices (5/4) 1250 (by norm_num) (by norm_num)⟩

/-! ### C2 -/

set_option maxHeartbeats 1000000 in
/-- C2: `findDistance` is symmetric: for every route `(a, b, d)` stored in
the catalog, `findDistance a b` and `findDistance b a` both return `d`. -/
theorem C2_findDistance_symm (r : Route) (hr : r ∈ routes) :
    findDistance r.origin r.destination = some r.distanceKm
    ∧ findDistance r.destination r.origin = some r.distanceKm := by
  have h : ∀ r' ∈ routes, findDistance r'.origin r'.destination = some r'.distanceKm
      ∧ findDistance r'.destination r'.origin = some r'.distanceKm := by decide
  exact h r hr

/-- Witness for C2 at the first catalog route. -/
theorem C2_witness :
    (⟨"São Paulo, SP", "Rio de Janeiro, RJ", (430 : ℚ)⟩ : Route) ∈ routes
    ∧ findDistance (r"São Paulo, SP") (r"Rio de Janeiro, RJ") = some 430
    ∧ findDistance (r"Rio de Janeiro, RJ") (r"São Paulo, SP") = some 430 := by
  refine ⟨by decide, ?_, ?_⟩
  · exact (C2_findDistance_symm ⟨"São Paulo, SP", "Rio de Janeiro, RJ", 430⟩ (by decide)).1
  · exact (C2_findDistance_symm ⟨"São Paulo, SP", "Rio de Janeiro, RJ", 430⟩ (by decide)).2

/-! ### C9 -/

set_option maxRecDepth 40000 in
set_option maxHeartbeats 1600000 in
unseal List.merge List.mergeSort in
/-- C9: `getAllCities` returns a list with no duplicates, sorted
lexicographically, whose length equals the number of distinct place names
appearing as origin or destination across all routes in the catalog. -/
theorem C9_listCities :
    getAllCities.Nodup
    ∧ List.Sorted (fun a b => stringLe a b = true) getAllCities
    ∧ getAllCities.length
      = ((routes.map Route.origin ++ routes.map Route.destination).dedup).length := by
  refine ⟨by decide, by decide, by decide⟩

/-! ### C7 -/

/-- The boolean forward-match test used inside `findDistance` holds exactly
when `matchesFwd` holds. -/
theorem matchesFwd_iff (r : Route) (x y : String) :
    (jsLower r.origin.data == normalizeName x
      && jsLower r.destination.data == normalizeName y) = true ↔ matchesFwd r x y := by
  rw [Bool.and_eq_true, beq_iff_eq, beq_iff_eq, matchesFwd]

/-- Unfolding of `findDistance` as a forward search followed by a reverse search. -/
theorem findDistance_eq (x y : String) :
    findDistance x y
      = (match routes.find? (fun r => jsLower r.origin.data == normalizeName x
            && jsLower r.destination.data == normalizeName y) with
        | some r => some r.distanceKm
        | none =>
          match routes.find? (fun r => jsLower r.origin.data == normalizeName y
              && jsLower r.destination.data == normalizeName x) with
          | some r => some r.distanceKm
          | none => none) := rfl

/-- C7: `findDistance` trims and lowercases both inputs and compares the
stored names case-insensitively — its result depends only on the
normalized names — and it returns a stored distance exactly when some
catalog route matches the queried pair forward or reversed, `none`
otherwise. -/
theorem C7_findDistance_normalization (a a' b b' : String)
    (ha : normalizeName a = normalizeName a') (hb : normalizeName b = normalizeName b') :
    findDistance a b = findDistance a' b'
    ∧ (∀ q : ℚ, findDistance a b = some q →
        ∃ r ∈ routes, q = r.distanceKm ∧ (matchesFwd r a b ∨ matchesFwd r b a))
    ∧ (findDistance a b = none ↔ ∀ r ∈ routes, ¬ matchesFwd r a b ∧ ¬ matchesFwd r b a) := by
  refine ⟨?_, ?_, ?_⟩
  · rw [findDistance_eq a b, findDistance_eq a' b', ha, hb]
  · intro q hq
    rw [findDistance_eq a b] at hq
    cases h1 : routes.find? (fun r => jsLower r.origin.data == normalizeName a
        && jsLower r.destination.data == normalizeName b) with
    | some r =>
      rw [h1] at hq
      simp only [Option.some.injEq] at hq
      have hp := List.find?_some h1
      exact ⟨r, List.mem_of_find?_eq_some h1, hq.symm,
        Or.inl ((matchesFwd_iff r a b).1 hp)⟩
    | none =>
      rw [h1] at hq
      cases h2 : routes.find? (fun r => jsLower r.origin.data == normalizeName b
          && jsLower r.destination.data == normalizeName a) with
      | some r =>
        rw [h2] at hq
        simp only [Option.some.injEq] at hq
        have hp := List.find?_some h2
        exact ⟨r, List.mem_of_find?_eq_some h2, hq.symm,
          Or.inr ((matchesFwd_iff r b a).1 hp)⟩
      | none =>
        rw [h2] at hq
        exact absurd hq (by simp)
  · constructor
    · intro h r hr
      rw [findDistance_eq a b] at h
      cases h1 : routes.find? (fun r => jsLower r.origin.data == normalizeName a
          && jsLower r.destination.data == normalizeName b) with
      | some r' => rw [h1] at h; exact absurd h (by simp)
      | none =>
        rw [h1] at h
        cases h2 : routes.find? (fun r => jsLower r.origin.data == normalizeName b
            && jsLower r.destination.data == normalizeName a) with
        | some r' => rw [h2] at h; exact absurd h (by simp)
        | none =>
          constructor
          · intro hm
            exact absurd (List.find?_eq_none.1 h1 r hr) (by
              simp only [not_not]
              exact (matchesFwd_iff r a b).2 hm)
          · intro hm
            exact absurd (List.find?_eq_none.1 h2 r hr) (by
              simp only [not_not]
              exact (matchesFwd_iff r b a).2 hm)
    · intro h
      rw [findDistance_eq a b]
      have h1 : routes.find? (fun r => jsLower r.origin.data == normalizeName a
          && jsLower r.destination.data == normalizeName b) = none :=
        List.find?_eq_none.2 (fun r hr hp => (h r hr).1 ((matchesFwd_iff r a b).1 hp))
      have h2 : routes.find? (fun r => jsLower r.origin.data == normalizeName b
          && jsLower r.destination.data == normalizeName a) = none :=
        List.find?_eq_none.2 (fun r hr hp => (h r hr).2 ((matchesFwd_iff r b a).1 hp))
      rw [h1, h2]

/-- Witness for C7 at the whitespace/case variants of the São Paulo – Rio
pair; the final conjunct is the claim's concrete consequence. -/
theorem C7_witness :
    normalizeName (r" São Paulo, SP ") = normalizeName (r"São Paulo, SP")
    ∧ normalizeName (r"rio de janeiro, rj") = normalizeName (r"Rio de Janeiro, RJ")
    ∧ findDistance (r" São Paulo, SP ") (r"rio de janeiro, rj")
        = findDistance (r"São Paulo, SP") (r"Rio de Janeiro, RJ") := by
  refine ⟨by decide, by decide, ?_⟩
  exact (C7_findDistance_normalization (r" São Paulo, SP ") (r"São Paulo, SP")
    (r"rio de janeiro, rj") (r"Rio de Janeiro, RJ") (by decide) (by decide)).1

/-! ### C3 -/

/-- C3 counterexample: at `emission = 1.005`, `baseline = 1`, the code's
`savedKg` is `0` — not the claimed `round2(baseline - emission) = -0.01`
(ties away from zero), and not negative although the emission exceeds the
baseline. -/
theorem C3_counterexample :
    calculateSavings (201/200) 1 = ⟨0, 0⟩
    ∧ round2Spec (1 - 201/200) = -(1/100)
    ∧ ¬ ((0 : ℚ) = -(1/100))
    ∧ ¬ ((calculateSavings (201/200) 1).savedKg < 0) := by
  have h1 : jsRound (((1:ℚ) - 201/200) * 100) = 0 :=
    jsRound_eq _ 0 (by norm_num) (by norm_num)
  have hmain : calculateSavings (201/200) 1 = ⟨0, 0⟩ := by
    rw [calculateSavings, if_neg (by norm_num)]
    show (⟨(jsRound (((1:ℚ) - 201/200) * 100) : ℚ) / 100,
      (jsRound ((jsRound (((1:ℚ) - 201/200) * 100) : ℚ) / 100 / 1 * 10000) : ℚ) / 100⟩
      : SavingsResult) = ⟨0, 0⟩
    rw [h1]
    have h2 : jsRound (((0:ℤ):ℚ) / 100 / 1 * 10000) = 0 :=
      jsRound_eq _ 0 (by norm_num) (by norm_num)
    rw [h2]
    norm_num [SavingsResult.mk.injEq]
  refine ⟨hmain, ?_, by norm_num, ?_⟩
  · have h2 : ((1:ℚ) - 201/200) * 100 - 1/2 = ((-1 : ℤ) : ℚ) := by norm_num
    rw [round2Spec, roundAway, if_neg (by norm_num), h2, Int.ceil_intCast]
    norm_num
  · rw [hmain]
    norm_num

/-- C3, amended: for `baseline ≠ 0`, `calculateSavings` returns
`savedKg = round2js(baseline - emission)` and
`percentage = round(savedKg / baseline * 10000) / 100`, where `round2js`
uses the source's native `Math.round` (ties toward +∞, so a negative
difference of less than half a hundredth rounds to 0 rather than away from
zero); `calculateSavings 8.9 12 = {savedKg: 3.1, percentage: 25.83}`; and
when the emission exceeds a positive baseline both results are non-positive
and are returned as computed, not clamped. -/
theorem C3_computeSavings (e b : ℚ) (hb : ¬ b = 0) :
    calculateSavings e b
      = ⟨jsRound2 (b - e), (jsRound (jsRound2 (b - e) / b * 10000) : ℚ) / 100⟩
    ∧ calculateSavings (89/10) 12 = ⟨31/10, 2583/100⟩
    ∧ (0 < b → b < e →
        (calculateSavings e b).savedKg ≤ 0 ∧ (calculateSavings e b).percentage ≤ 0) := by
  have hdef : calculateSavings e b
      = ⟨jsRound2 (b - e), (jsRound (jsRound2 (b - e) / b * 10000) : ℚ) / 100⟩ := by
    rw [calculateSavings, if_neg hb]
    rfl
  refine ⟨hdef, ?_, ?_⟩
  · have h1 : jsRound (((12:ℚ) - 89/10) * 100) = 310 :=
      jsRound_eq _ 310 (by norm_num) (by norm_num)
    rw [calculateSavings, if_neg (by norm_num)]
    show (⟨(jsRound (((12:ℚ) - 89/10) * 100) : ℚ) / 100,
      (jsRound ((jsRound (((12:ℚ) - 89/10) * 100) : ℚ) / 100 / 12 * 10000) : ℚ) / 100⟩
      : SavingsResult) = ⟨31/10, 2583/100⟩
    rw [h1]
    have h2 : jsRound (((310:ℤ):ℚ) / 100 / 12 * 10000) = 2583 :=
      jsRound_eq _ 2583 (by norm_num) (by norm_num)
    rw [h2]
    norm_num [SavingsResult.mk.injEq]
  · intro hb0 hbe
    have hs : jsRound2 (b - e) ≤ 0 := by
      rw [jsRound2]
      have h1 : jsRound ((b - e) * 100) ≤ 0 := jsRound_nonpos _ (by nlinarith)
      exact div_nonpos_iff.2 (Or.inr ⟨by exact_mod_cast h1, by norm_num⟩)
    have hp : (jsRound (jsRound2 (b - e) / b * 10000) : ℚ) / 100 ≤ 0 := by
      have hq : jsRound2 (b - e) / b ≤ 0 :=
        div_nonpos_iff.2 (Or.inr ⟨hs, le_of_lt hb0⟩)
      have h2 : jsRound (jsRound2 (b - e) / b * 10000) ≤ 0 :=
        jsRound_nonpos _ (by nlinarith)
      exact div_nonpos_iff.2 (Or.inr ⟨by exact_mod_cast h2, by norm_num⟩)
    rw [hdef]
    exact ⟨hs, hp⟩

/-- Witness for C3 (amended) at `emission = 8.9`, `baseline = 12`. -/
theorem C3_witness :
    ¬ ((12 : ℚ) = 0)
    ∧ (calculateSavings (89/10) 12
        = ⟨jsRound2 (12 - 89/10), (jsRound (jsRound2 (12 - 89/10) / 12 * 10000) : ℚ) / 100⟩
       ∧ calculateSavings (89/10) 12 = ⟨31/10, 2583/100⟩
       ∧ (0 < (12:ℚ) → (12:ℚ) < 89/10 →
           (calculateSavings (89/10) 12).savedKg ≤ 0
           ∧ (calculateSavings (89/10) 12).percentage ≤ 0)) :=
  ⟨by norm_num, C3_computeSavings (89/10) 12 (by norm_num)⟩

/-! ### C5 and C10 -/

/-- The car baseline emission is zero exactly on distances below 1/24 km
(negative distances hit the validation guard; small positive ones round to
zero). -/
theorem carEmission_zero_iff (d : ℚ) : calculateEmission d carMode = 0 ↔ d < 1/24 := by
  rcases lt_or_le d 0 with hd | hd
  · rw [calculateEmission, if_pos (Or.inl hd)]
    constructor
    · intro _; linarith
    · intro _; rfl
  · rw [calculateEmission_def d carMode (12/100) (not_lt.2 hd) lookup_car (by decide)]
    have harg : d * (12/100) * 100 = 12 * d := by ring
    rw [harg, div_eq_zero_iff]
    constructor
    · rintro (h0 | h0)
      · have hz : jsRound (12 * d) = 0 := by exact_mod_cast h0
        rw [jsRound] at hz
        obtain ⟨h1', h2'⟩ := Int.floor_eq_iff.1 hz
        push_cast at h2'
        linarith
      · norm_num at h0
    · intro h
      left
      have hz : jsRound (12 * d) = 0 :=
        jsRound_eq (12 * d) 0 (by push_cast; linarith) (by push_cast; linarith)
      rw [hz]
      norm_num

/-- When the car baseline is zero, `calculateAllModes` returns the empty
list without dividing by the baseline. -/
theorem allModes_empty_of_carZero (d : ℚ) (h : calculateEmission d carMode = 0) :
    calculateAllModes d = [] := by
  simp only [calculateAllModes]
  rw [if_pos h]

/-- C5 counterexample: the claim says the car baseline is zero precisely
when the distance is zero, but at the non-zero distance 0.01 km the
baseline already evaluates to 0. -/
theorem C5_counterexample :
    calculateEmission (1/100) carMode = 0 ∧ ¬ ((1/100 : ℚ) = 0) :=
  ⟨(carEmission_zero_iff (1/100)).2 (by norm_num), by norm_num⟩

/-- C5, amended: `calculateAllModes` uses the car emission as baseline; the
baseline is zero precisely when the distance is below 1/24 km (not
precisely at distance 0), in that region the function returns the empty
list without ever dividing by the baseline, and `calculateAllModes 0 = []`. -/
theorem C5_baselineZeroGuard (d : ℚ) :
    (calculateEmission d carMode = 0 ↔ d < 1/24)
    ∧ (calculateEmission d carMode = 0 → calculateAllModes d = [])
    ∧ calculateAllModes 0 = [] :=
  ⟨carEmission_zero_iff d, allModes_empty_of_carZero d,
    allModes_empty_of_carZero 0 ((carEmission_zero_iff 0).2 (by norm_num))⟩

/-- C10: for every distance below 1/24 km (≈ 41.7 m) — in particular every
negative distance and every positive distance whose car emission
`round2(0.12 * d)` rounds to 0 — the car baseline is 0 and
`calculateAllModes` returns the empty list even at non-zero distances;
for non-negative d the rounding condition `round2Spec (0.12 * d) = 0` is
exactly `d < 1/24`. -/
theorem C10_smallDistanceEmpty (d : ℚ) (h : d < 1/24) :
    calculateEmission d carMode = 0 ∧ calculateAllModes d = []
    ∧ (0 ≤ d → round2Spec (12/100 * d) = 0) := by
  refine ⟨(carEmission_zero_iff d).2 h,
    allModes_empty_of_carZero d ((carEmission_zero_iff d).2 h), ?_⟩
  intro hd
  have harg : (12/100 : ℚ) * d * 100 = 12 * d := by ring
  rw [round2Spec, harg, roundAway_eq_jsRound (12 * d) (by positivity)]
  have hz : jsRound (12 * d) = 0 :=
    jsRound_eq (12 * d) 0 (by push_cast; linarith) (by push_cast; linarith)
  rw [hz]
  norm_num

/-- Witness for C10 at the non-zero distance 0.01 km. -/
theorem C10_witness :
    (1/100 : ℚ) < 1/24 ∧ ¬ ((1/100 : ℚ) = 0)
    ∧ (calculateEmission (1/100) carMode = 0 ∧ calculateAllModes (1/100) = []
       ∧ (0 ≤ (1/100 : ℚ) → round2Spec (12/100 * (1/100)) = 0)) :=
  ⟨by norm_num, by norm_num, C10_smallDistanceEmpty (1/100) (by norm_num)⟩

/-! ### C4 -/

/-- Transitivity of the comparison used by the all-modes sort. -/
theorem emissionLe_trans (a b c : ComparisonEntry) (h1 : emissionLe a b = true)
    (h2 : emissionLe b c = true) : emissionLe a c = true := by
  simp only [emissionLe] at h1 h2 ⊢
  exact decide_eq_true (le_trans (of_decide_eq_true h1) (of_decide_eq_true h2))

/-- Totality of the comparison used by the all-modes sort. -/
theorem emissionLe_total (a b : ComparisonEntry) :
    (emissionLe a b || emissionLe b a) = true := by
  simp only [emissionLe, Bool.or_eq_true]
  rcases le_total a.emission b.emission with h | h
  · exact Or.inl (decide_eq_true h)
  · exact Or.inr (decide_eq_true h)

/-- On a non-zero car baseline, `calculateAllModes` is the stable sort of
one entry per mode key. -/
theorem calculateAllModes_eq (d : ℚ) (h : ¬ calculateEmission d carMode = 0) :
    calculateAllModes d = (modeKeys.map (modeEntry d)).mergeSort emissionLe := by
  simp only [calculateAllModes]
  rw [if_neg h]
  rfl

/-- C4: whenever the car baseline emission is non-zero,
`calculateAllModes` returns exactly one entry per known transport mode,
sorted ascending by emission, with the car entry's `percentageVsCar`
exactly 100 and every entry's `percentageVsCar` equal to its emission
divided by the car emission times 100, rounded to two decimals. -/
theorem C4_allModes (d : ℚ) (h : ¬ calculateEmission d carMode = 0) :
    ((calculateAllModes d).map ComparisonEntry.mode).Perm modeKeys
    ∧ List.Sorted (fun a b => a.emission ≤ b.emission) (calculateAllModes d)
    ∧ (∀ x ∈ calculateAllModes d, x.mode = carMode → x.percentageVsCar = 100)
    ∧ (∀ x ∈ calculateAllModes d,
        x.percentageVsCar = jsRound2 (x.emission / calculateEmission d carMode * 100)) := by
  refine ⟨?_, ?_, ?_, ?_⟩
  · have hp := (List.mergeSort_perm (modeKeys.map (modeEntry d)) emissionLe).map
      ComparisonEntry.mode
    rw [List.map_map, show ComparisonEntry.mode ∘ modeEntry d = id from rfl,
      List.map_id] at hp
    rw [calculateAllModes_eq d h]
    exact hp
  · rw [calculateAllModes_eq d h]
    exact (List.sorted_mergeSort emissionLe_trans emissionLe_total
      (modeKeys.map (modeEntry d))).imp (fun hab => of_decide_eq_true hab)
  · intro x hx hcar
    rw [calculateAllModes_eq d h, List.mem_mergeSort] at hx
    obtain ⟨m, hm, rfl⟩ := List.mem_map.1 hx
    have hmcar : m = carMode := hcar
    subst hmcar
    show (jsRound (calculateEmission d carMode / calculateEmission d carMode * 100 * 100) : ℚ)
        / 100 = 100
    rw [div_self h, show (1:ℚ) * 100 * 100 = 10000 by norm_num,
      jsRound_eq 10000 10000 (by norm_num) (by norm_num)]
    norm_num
  · intro x hx
    rw [calculateAllModes_eq d h, List.mem_mergeSort] at hx
    obtain ⟨m, hm, rfl⟩ := List.mem_map.1 hx
    rfl

/-- Witness for C4 at `d = 100`. -/
theorem C4_witness :
    ¬ (calculateEmission 100 carMode = 0)
    ∧ (((calculateAllModes 100).map ComparisonEntry.mode).Perm modeKeys
       ∧ List.Sorted (fun a b => a.emission ≤ b.emission) (calculateAllModes 100)
       ∧ (∀ x ∈ calculateAllModes 100, x.mode = carMode → x.percentageVsCar = 100)
       ∧ (∀ x ∈ calculateAllModes 100,
           x.percentageVsCar = jsRound2 (x.emission / calculateEmission 100 carMode * 100))) := by
  have hne : ¬ (calculateEmission 100 carMode = 0) := by
    rw [calculateEmission_def 100 carMode (12/100) (by norm_num) lookup_car (by decide),
      jsRound_eq (100 * (12/100) * 100) 1200 (by norm_num) (by norm_num)]
    norm_num
  exact ⟨hne, C4_allModes 100 hne⟩
